import Mathlib

/-!
Verification of the query-resolution and answer-verification pipeline of the
`entrapeer` repository.  Python strings are modelled as `List Char`; each
Python function under test is translated into a Lean definition of the same
name (namespaced as in the source).  External collaborators (the language
model, the two web-search backends, and the third-party libraries
`tldextract` / `wordninja` / `json`) are modelled as explicit function
parameters, so every theorem quantifies over their possible behaviours;
concrete fixtures instantiate them for witnesses and counterexamples.
-/

/-- Models Python `str.strip()`: removes leading and trailing whitespace. -/
def pyStrip (l : List Char) : List Char :=
  ((l.dropWhile Char.isWhitespace).reverse.dropWhile Char.isWhitespace).reverse

/-- Models Python `str.lower()` (ASCII range, which covers all inputs used). -/
def pyLower (l : List Char) : List Char :=
  l.map Char.toLower

/-- Models Python `str.upper()` (ASCII range). -/
def pyUpper (l : List Char) : List Char :=
  l.map Char.toUpper

/-- Models Python `str.capitalize()`: first character upper-cased, the rest
lower-cased. -/
def pyCapitalize (l : List Char) : List Char :=
  match l with
  | [] => []
  | c :: cs => Char.toUpper c :: cs.map Char.toLower

/-- Helper for `pyTitle`: the Boolean records whether the previous character
was alphabetic. -/
def pyTitleAux : Bool → List Char → List Char
  | _, [] => []
  | prevAlpha, c :: cs =>
    (if c.isAlpha then (if prevAlpha then c.toLower else c.toUpper) else c)
      :: pyTitleAux c.isAlpha cs

/-- Models Python `str.title()`: each alphabetic run starts upper-case and
continues lower-case. -/
def pyTitle (l : List Char) : List Char :=
  pyTitleAux false l

/-- Models Python `sep.join(parts)` for a list of strings. -/
def joinSep (sep : List Char) : List (List Char) → List Char
  | [] => []
  | [x] => x
  | x :: y :: xs => x ++ sep ++ joinSep sep (y :: xs)

/-- Fuel-indexed splitting on a separator substring; the fuel (any bound of
the list length) only makes the recursion structural. -/
def splitSubFuel (sep : List Char) : Nat → List Char → List (List Char)
  | _, [] => [[]]
  | 0, l => [l]
  | Nat.succ fuel, c :: cs =>
    if sep ≠ [] ∧ sep.isPrefixOf (c :: cs) then
      [] :: splitSubFuel sep fuel ((c :: cs).drop sep.length)
    else
      match splitSubFuel sep fuel cs with
      | [] => [[c]]
      | p :: ps => (c :: p) :: ps

/-- Models Python `s.split(sep)` for a non-empty separator `sep`: leftmost,
non-overlapping occurrences of `sep` cut the string; empty pieces are kept. -/
def splitSub (sep l : List Char) : List (List Char) :=
  splitSubFuel sep l.length l

/-- Models Python `s.replace(old, new)` for a non-empty `old`. -/
def pyReplace (l old new : List Char) : List Char :=
  joinSep new (splitSub old l)

/-- First-seen deduplication with an accumulator of already-seen values;
models both Python `dict.fromkeys` and the seen-set idiom in the source. -/
def dedupFirstAux (seen : List (List Char)) : List (List Char) → List (List Char)
  | [] => []
  | x :: xs =>
    if x ∈ seen then dedupFirstAux seen xs
    else x :: dedupFirstAux (x :: seen) xs

/-- Models Python `list(dict.fromkeys(l))`: duplicates removed, first
occurrence kept, order preserved. -/
def dedupFirst (l : List (List Char)) : List (List Char) :=
  dedupFirstAux [] l

/-- Splits a list at the LAST occurrence of `c`: returns the part before the
occurrence and the part after it, the latter guaranteed to not contain `c`. -/
def lastSplit (c : Char) : List Char → Option (List Char × List Char)
  | [] => none
  | x :: xs =>
    match lastSplit c xs with
    | some (a, b) => some (x :: a, b)
    | none => if x = c then some ([], xs) else none

/-- Models `utils.hyperlink`: OSC-8 terminal hyperlink escape wrapping. -/
def hyperlink (url text : List Char) : List Char :=
  "\x1b]8;;".data ++ url ++ "\x1b\\".data ++ text ++ "\x1b]8;;\x1b\\".data

/-! ## External-library interface

`tldextract.extract(url).domain` and `wordninja.split(word)` are third-party
libraries; the embedding takes them as parameters so that theorems hold for
every behaviour of theirs. -/

structure Libs where
  tldDomain : List Char → List Char
  wordSplit : List Char → List (List Char)

/-! ## `src/utils.py` -/

/-- Models `utils.evaluate_response`.  The language-model call is the
parameter `evalLLM`, mapping the two prompt inputs to the model's raw reply
(`.content` of the invocation). -/
def evaluate_response (evalLLM : List Char → List Char → List Char)
    (user_query retrieved_response : List Char) : List Char :=
  let evaluation_result := pyLower (pyStrip (evalLLM user_query retrieved_response))
  if evaluation_result = "sufficient".data ∨ evaluation_result = "irrelevant".data ∨
      evaluation_result = "incomplete".data then
    evaluation_result
  else
    "incomplete".data

/-- Models `utils.extract_source_names`: for each URL, the registrable domain
(`tldextract`) is segmented into words (`wordninja`), each word of length at
most 3 upper-cased and longer words capitalized, joined with spaces. -/
def extract_source_names (L : Libs) (source_list : List (List Char)) :
    List (List Char × List Char) :=
  source_list.map fun url =>
    let words := L.wordSplit (L.tldDomain url)
    let formatted_source :=
      joinSep " ".data
        (words.map fun word => if word.length ≤ 3 then pyUpper word else pyCapitalize word)
    (formatted_source, url)

/-- Models the Python regex search `\(([^)]+)\)\.?\s*$` used by
`utils.format_sources`: returns the parenthesized content at the end of the
text (one-or-more non-`)` characters, an optional trailing period, trailing
whitespace), choosing the leftmost `(` compatible with the match. -/
def searchTrailing (l : List Char) : Option (List Char) :=
  let r1 := l.reverse.dropWhile Char.isWhitespace
  let r2 := match r1 with
    | c :: t => if c = '.' then t else c :: t
    | [] => []
  match r2 with
  | c :: r3 =>
    if c = ')' then
      match lastSplit '(' (r3.takeWhile (fun x => x != ')')) with
      | some (contentRev, _) => if contentRev = [] then none else some contentRev.reverse
      | none => none
    else none
  | [] => none

/-- Models the Python regex substitution on `\([^()]*\)\.?\s*$` used by
`utils.format_sources`: replaces the trailing parenthesized group (content
free of parentheses, optional trailing period and whitespace) by `repl`;
returns the text unchanged when there is no match. -/
def subTrailing (l repl : List Char) : List Char :=
  let r1 := l.reverse.dropWhile Char.isWhitespace
  let r2 := match r1 with
    | c :: t => if c = '.' then t else c :: t
    | [] => []
  match r2 with
  | c :: r3 =>
    if c = ')' then
      match r3.drop (r3.takeWhile (fun x => x != '(' && x != ')')).length with
      | d :: restRev => if d = '(' then restRev.reverse ++ repl else l
      | [] => l
    else l
  | [] => l

/-- First-seen deduplication of `(name, url)` pairs by name; models the
`seen_names` loop of `utils.format_sources`. -/
def dedupByNameAux (seen : List (List Char)) :
    List (List Char × List Char) → List (List Char × List Char)
  | [] => []
  | p :: rest =>
    if p.1 ∈ seen then dedupByNameAux seen rest
    else p :: dedupByNameAux (p.1 :: seen) rest

/-- Models `utils.format_sources`: rewrites a trailing parenthesized group
into a `(Source: ...)` citation list ending in a period.  With a ticker, a single
Yahoo Finance link is used; otherwise the group is split as comma-separated
URLs, attributed via `extract_source_names`, deduplicated by display name and
hyperlinked. -/
def format_sources (L : Libs) (text : List Char) (ticker : Option (List Char)) :
    List Char :=
  match searchTrailing text with
  | some content =>
    let hyperlinks :=
      match ticker with
      | some t => [hyperlink ("https://finance.yahoo.com/quote/".data ++ t) "Yahoo Finance".data]
      | none =>
        let sources := splitSub ", ".data content
        let formatted_sources := extract_source_names L sources
        (dedupByNameAux [] formatted_sources).map fun p => hyperlink p.2 p.1
    let new_source_text := "(Source: ".data ++ joinSep ", ".data hyperlinks ++ ").".data
    subTrailing text new_source_text
  | none => text

/-! ## `src/graph/utils.py` -/

/-- Finds the first `//` in a URL and returns what follows; helper for the
`urlparse(url).netloc` model. -/
def dropToDoubleSlash : List Char → Option (List Char)
  | [] => none
  | '/' :: '/' :: rest => some rest
  | _ :: rest => dropToDoubleSlash rest

/-- Models `urlparse(url).netloc` for absolute URLs of the shape used by the
pipeline (`scheme://host/...`): the host part between `//` and the next
`/`, `?` or `#`. -/
def urlNetloc (url : List Char) : List Char :=
  match dropToDoubleSlash url with
  | some rest => rest.takeWhile (fun c => c != '/' && c != '?' && c != '#')
  | none => []

/-- The word sequence that `graph/utils.extract_source_name` derives from a
URL before deduplication: for a netloc of more than two dot-separated parts,
the words of `parts[1]` followed by the words of `parts[0]`; otherwise the
words of `parts[0]`. -/
def sourceWordsOf (L : Libs) (url : List Char) : List (List Char) :=
  match splitSub ".".data (urlNetloc url) with
  | a :: b :: _ :: _ => L.wordSplit b ++ L.wordSplit a
  | a :: _ => L.wordSplit a
  | [] => L.wordSplit []

/-- The per-word rendering of `graph/utils.extract_source_name`: words of
length at most 3 upper-cased, longer words title-cased. -/
def graphWordFmt (word : List Char) : List Char :=
  if word.length ≤ 3 then pyUpper word else pyTitle word

/-- Models `graph/utils.extract_source_name`: domain/subdomain words,
deduplicated preserving first occurrence, formatted and joined with spaces. -/
def extract_source_name (L : Libs) (url : List Char) : List Char :=
  joinSep " ".data ((dedupFirst (sourceWordsOf L url)).map graphWordFmt)

/-- Model of a parsed JSON value (the result of `json.loads`). -/
inductive JsonVal where
  | str (s : List Char)
  | num (n : Int)
  | boolean (b : Bool)
  | null
  | arr (elems : List JsonVal)
  | obj (fields : List (List Char × JsonVal))

/-- Dictionary lookup on parsed-JSON object fields (models `d["tools"]`). -/
def lookupField : List (List Char × JsonVal) → List Char → Option JsonVal
  | [], _ => none
  | (k, v) :: rest, key => if k = key then some v else lookupField rest key

/-- The three retrieval tools of `graph/utils.determine_tool_for_task`'s
`tools_map`. -/
inductive Tool where
  | WikipediaQueryTool
  | SerperQueryTool
  | TavilySearchResults
deriving DecidableEq

/-- The `tools_map` lookup: known tool names map to tools, anything else to
`none` (so unknown names are dropped by the comprehension). -/
def toolOfName (s : List Char) : Option Tool :=
  if s = "WikipediaQueryTool".data then some Tool.WikipediaQueryTool
  else if s = "SerperQueryTool".data then some Tool.SerperQueryTool
  else if s = "TavilySearchResults".data then some Tool.TavilySearchResults
  else none

/-- A JSON value that Python cannot hash (`list`/`dict`): testing `tool in
tools_map` on such an element raises `TypeError`. -/
def jsonUnhashable : JsonVal → Bool
  | JsonVal.arr _ => true
  | JsonVal.obj _ => true
  | _ => false

/-- The list comprehension `[tools_map[tool] for tool in tool_list if tool in
tools_map]`: string elements naming known tools are kept in order, everything
else is dropped. -/
def selectedTools (elems : List JsonVal) : List Tool :=
  elems.filterMap fun e =>
    match e with
    | JsonVal.str s => toolOfName s
    | _ => none

/-- Whether a parsed JSON value is an object (a Python `dict`). -/
def isObjJson : JsonVal → Bool
  | JsonVal.obj _ => true
  | _ => false

/-- The normalization the source applies to the model reply before parsing:
`response.replace("\n", "").strip()`. -/
def dtftNormalize (reply : List Char) : List Char :=
  pyStrip (pyReplace reply "\n".data [])

/-- Models `graph/utils.determine_tool_for_task` as a function of the JSON
parser outcome (`parse`, modelling `json.loads`, `none` standing for a
`JSONDecodeError`) and the raw model reply.  `Except.error` models an
uncaught Python exception propagating out of the function; `Except.ok` a
normal return. -/
def determine_tool_for_task (parse : List Char → Option JsonVal)
    (reply : List Char) : Except (List Char) (List Tool) :=
  match parse (dtftNormalize reply) with
  | none => Except.ok [Tool.TavilySearchResults]
  | some v =>
    match v with
    | JsonVal.obj fields =>
      match lookupField fields "tools".data with
      | none => Except.error "KeyError: tools".data
      | some (JsonVal.arr elems) =>
        if elems.any jsonUnhashable then Except.error "TypeError: unhashable".data
        else Except.ok (selectedTools elems)
      | some (JsonVal.str _) => Except.ok []
      | some _ => Except.error "TypeError: not iterable".data
    | _ => Except.ok [Tool.TavilySearchResults]

/-! ## Environment for the pipeline

All external effects of `main.py`, `financial_query_handler.py`,
`wikipedia_query_handler.py`, `query_disambiguator.py` and
`verification_search_handler.py` are collected into one record of
deterministic oracles: language-model replies are functions of the prompt
inputs, the search backends are functions of the query, and the interactive
`input()` calls are fixed strings. -/

structure Env where
  /-- The text typed at the initial `input()` prompt of `main`. -/
  userInput : List Char
  /-- `QueryDisambiguator.resolve_query`: raw input to refined query. -/
  resolveQuery : List Char → List Char
  /-- `disambiguator.intent` after resolving the given raw input. -/
  intentOf : List Char → List Char
  /-- `disambiguator.company` after resolving the given raw input. -/
  companyOf : List Char → List Char
  /-- Raw reply of `FinancialQueryHandler.get_ticker`'s model call. -/
  tickerLLM : List Char → List Char
  /-- Raw reply of the stock-insight model call, as a function of the user
  query and the ticker (it also sees the fetched stock data, which is a
  deterministic function of the ticker, so the two arguments determine it). -/
  stockAnswer : List Char → List Char → List Char
  /-- `WikipediaQueryHandler.generate_response` on the refined query. -/
  wikiAnswer : List Char → List Char
  /-- `first_tool.url` after the Wikipedia handler answered the query. -/
  wikiUrl : List Char → List Char
  /-- Raw reply of the sufficiency-evaluation model call of
  `utils.evaluate_response` for a (query, response) pair. -/
  evalLLM : List Char → List Char → List Char
  /-- Tavily search results: ordered `(content, url)` entries. -/
  tavily : List Char → List (List Char × List Char)
  /-- Serper organic results: ordered `(link, snippet)` entries (only entries
  that carry both keys, as filtered by the source). -/
  serper : List Char → List (List Char × List Char)
  /-- Raw reply of the combine-and-validate model call of
  `combined_search` (query, tavily text, serper text, joined sources). -/
  combineLLM : List Char → List Char → List Char → List Char → List Char
  /-- Raw reply of the auxiliary-validation model call of
  `verify_auxiliary_response` (query, auxiliary, first text, second text). -/
  validateLLM : List Char → List Char → List Char → List Char → List Char
  /-- The answer typed at the "Would you like to search something else?"
  prompt. -/
  somethingElse : List Char
  /-- The `tldextract` / `wordninja` libraries. -/
  libs : Libs

/-! ## `src/verification_search_handler.py` -/

namespace VerificationSearchHandler

/-- Models `search_tavily`: first 3 content snippets joined with single
spaces, plus the full ordered source list. -/
def search_tavily (env : Env) (query : List Char) : List Char × List (List Char) :=
  let tavily_response := env.tavily query
  (joinSep " ".data ((tavily_response.map Prod.fst).take 3), tavily_response.map Prod.snd)

/-- Models `search_serper`: first 3 snippets joined with single spaces, plus
the full ordered link list. -/
def search_serper (env : Env) (query : List Char) : List Char × List (List Char) :=
  let organic_results := env.serper query
  (joinSep " ".data ((organic_results.map Prod.snd).take 3), organic_results.map Prod.fst)

/-- Models `list(set(tavily_sources + serper_sources))`.  Python's set
iteration order is an implementation artifact; the model keeps the first
occurrence of each element, which fixes one deterministic order.  No claim
proved below depends on the order chosen. -/
def pySetList (l : List (List Char)) : List (List Char) :=
  dedupFirst l

/-- Models the static method `extract_source_names` of the handler: the bare
registrable domain of each URL with only its first letter capitalized —
no word segmentation and no deduplication. -/
def extract_source_names (L : Libs) (source_list : List (List Char)) :
    List (List Char) :=
  source_list.map fun url => pyCapitalize (L.tldDomain url)

/-- Models the Python regex search `\((.*?)\)\s*$` of the handler's
`format_sources`: the final non-whitespace character must be `)`, and the
content runs from the leftmost `(` to it (no trailing period allowed, unlike
the `utils` variant). -/
def vshSearchTrailing (l : List Char) : Option (List Char) :=
  match l.reverse.dropWhile Char.isWhitespace with
  | c :: r3 =>
    if c = ')' then
      match lastSplit '(' r3 with
      | some (contentRev, _) => some contentRev.reverse
      | none => none
    else none
  | [] => none

/-- Models the corresponding substitution on `\(.*?\)\s*$`: replaces from the
leftmost `(` to the end by `repl`. -/
def vshSubTrailing (l repl : List Char) : List Char :=
  match l.reverse.dropWhile Char.isWhitespace with
  | c :: r3 =>
    if c = ')' then
      match lastSplit '(' r3 with
      | some (_, restRev) => restRev.reverse ++ repl
      | none => l
    else l
  | [] => l

/-- Models the static method `format_sources` of the handler: rewrites the
trailing parenthesized group into `(Source: name1, name2, ...)` using the
handler's own `extract_source_names` — names are neither hyperlinked nor
deduplicated, and no trailing period is appended. -/
def format_sources (L : Libs) (text : List Char) : List Char :=
  match vshSearchTrailing text with
  | some content =>
    let sources := splitSub ", ".data content
    let formatted_sources := extract_source_names L sources
    let new_source_text := "(Source: ".data ++ joinSep ", ".data formatted_sources ++ ")".data
    vshSubTrailing text new_source_text
  | none => text

/-- Models the no-auxiliary branch of `combined_search`: run both searches,
merge the sources as a set, and ask the model for a combined answer (the
prompt receives the first five merged sources joined by commas). -/
def combined_search_noaux (env : Env) (user_query : List Char) : List Char :=
  let tavily := search_tavily env user_query
  let serper := search_serper env user_query
  let all_sources := pySetList (tavily.2 ++ serper.2)
  pyStrip (env.combineLLM user_query tavily.1 serper.1
    (joinSep ", ".data (all_sources.take 5)))

/-- Models `verify_auxiliary_response`: validate the auxiliary answer via the
model; if the (stripped, lower-cased) verdict is exactly `valid`, append the
auxiliary source plus the first five search sources (first-seen
deduplicated) in parentheses and format them with the handler's own
`format_sources`; otherwise fall back to `combined_search(query)`, which with
no auxiliary argument is exactly the no-auxiliary branch. -/
def verify_auxiliary_response (env : Env) (query auxiliary_response first_text
    second_text : List Char) (sources : List (List Char)) (aux_source : List Char) :
    List Char :=
  let validation_result := pyLower (pyStrip (env.validateLLM query auxiliary_response
    first_text second_text))
  if validation_result = "valid".data then
    let unique_sources := joinSep ", ".data (dedupFirst (aux_source :: sources.take 5))
    let response := auxiliary_response ++ " (".data ++ unique_sources ++ ")".data
    format_sources env.libs response
  else
    combined_search_noaux env query

/-- Models `combined_search`.  `auxiliary_response = none` is Python's
default `None`; a supplied empty string is falsy in Python and also takes the
no-auxiliary branch.  When an auxiliary response is verified the
orchestrator always supplies `aux_source`, so the model reads it with
default `[]` (the source would raise if it were `None` on that path). -/
def combined_search (env : Env) (user_query : List Char)
    (auxiliary_response : Option (List Char)) (aux_source : Option (List Char)) :
    List Char :=
  let tavily := search_tavily env user_query
  let serper := search_serper env user_query
  let all_sources := pySetList (tavily.2 ++ serper.2)
  match auxiliary_response with
  | some aux =>
    if aux ≠ [] then
      verify_auxiliary_response env user_query aux tavily.1 serper.1 all_sources
        (aux_source.getD [])
    else
      combined_search_noaux env user_query
  | none => combined_search_noaux env user_query

end VerificationSearchHandler

/-! ## `src/financial_query_handler.py` -/

/-- The possible Python return values of `FinancialQueryHandler.analyze_stock`:
a plain string answer, the tuple `(False, message)` returned when the ticker
lookup produced a non-ticker message, or the implicit `None` returned when
the model's insight reply is empty. -/
inductive PyRes where
  | strRes (s : List Char)
  | pairRes (b : Bool) (msg : List Char)
  | noneRes
deriving DecidableEq

namespace FinancialQueryHandler

/-- Models `get_ticker`: the stripped model reply for the company name. -/
def get_ticker (env : Env) (company_name : List Char) : List Char :=
  pyStrip (env.tickerLLM company_name)

/-- Models `analyze_stock`: a reply longer than 5 characters is treated as a
non-ticker message and returned as the tuple `(False, message)`; otherwise
the stock data is fetched and the model composes the answer (an empty reply
falls through to an implicit `None`). -/
def analyze_stock (env : Env) (user_query company_name : List Char) : PyRes :=
  let ticker := get_ticker env company_name
  if 5 < ticker.length then
    PyRes.pairRes false ticker
  else
    let response := pyStrip (env.stockAnswer user_query ticker)
    if response = [] then PyRes.noneRes else PyRes.strRes response

end FinancialQueryHandler

/-! ## `src/main.py` -/

/-- Pipeline-stage events, recorded in execution order so that theorems can
speak about which stages an execution of `main` performed. -/
inductive Event where
  /-- `resolve_query` produced this refined query (step 1). -/
  | disambiguated (refined : List Char)
  /-- `evaluate_response` was called on this (query, response) pair and
  returned this verdict (steps 3 and 5). -/
  | evaluated (query response verdict : List Char)
  /-- `combined_search` was called with this auxiliary response (step 4). -/
  | verifiedAux (query response : List Char)
  /-- `combined_search` was called with no auxiliary response. -/
  | searchedCombined (query : List Char)
  /-- `main(retry=True, user_input=query)` was entered. -/
  | retried (query : List Char)
  /-- The ticker lookup failed and the follow-up prompt was shown. -/
  | tickerFailed (msg : List Char)
  /-- The Python code would raise here (`first_result[1]` on `None`). -/
  | crashed
deriving DecidableEq

/-- The goodbye message of `main` when the user declines another search. -/
def goodbyeMsg : List Char := " >> Understood. Have a great day!".data

/-- Models `main.main`, with explicit fuel bounding the recursion depth
(`main` calls itself both for the retry path and after a failed ticker
lookup; Python would simply recurse).  Returns the final result — `none`
when the fuel runs out before the call returns, i.e. for the prefix of a
deeper or non-terminating execution — together with the chronological list of
stage events of the execution prefix explored. -/
def mainLoop (env : Env) : Nat → Bool → List Char → Option (List Char) × List Event
  | 0, _, _ => (none, [])
  | Nat.succ fuel, retry, user_input0 =>
    let user_input := if retry then user_input0 else env.userInput
    let refined_query := env.resolveQuery user_input
    let intent := env.intentOf user_input
    let company := env.companyOf user_input
    if intent = "stock".data then
      match FinancialQueryHandler.analyze_stock env refined_query company with
      | PyRes.pairRes _ msg =>
        if pyLower env.somethingElse ∈ ["y".data, "yes".data] then
          let next := mainLoop env fuel false []
          (next.1, Event.disambiguated refined_query :: Event.tickerFailed msg :: next.2)
        else
          (some goodbyeMsg, [Event.disambiguated refined_query, Event.tickerFailed msg])
      | PyRes.strRes s =>
        (some s, [Event.disambiguated refined_query])
      | PyRes.noneRes =>
        (none, [Event.disambiguated refined_query, Event.crashed])
    else
      let first_result := env.wikiAnswer refined_query
      let evaluation := evaluate_response env.evalLLM refined_query first_result
      if evaluation = "sufficient".data then
        let verified := VerificationSearchHandler.combined_search env refined_query
          (some first_result) (some (env.wikiUrl refined_query))
        (some verified,
          [Event.disambiguated refined_query,
           Event.evaluated refined_query first_result evaluation,
           Event.verifiedAux refined_query first_result])
      else
        let verified := VerificationSearchHandler.combined_search env refined_query none none
        let evaluation2 := evaluate_response env.evalLLM refined_query verified
        if evaluation2 = "sufficient".data then
          (some verified,
            [Event.disambiguated refined_query,
             Event.evaluated refined_query first_result evaluation,
             Event.searchedCombined refined_query,
             Event.evaluated refined_query verified evaluation2])
        else
          let next := mainLoop env fuel true refined_query
          (next.1,
            [Event.disambiguated refined_query,
             Event.evaluated refined_query first_result evaluation,
             Event.searchedCombined refined_query,
             Event.evaluated refined_query verified evaluation2,
             Event.retried refined_query] ++ next.2)

/-- Whether an event is a sufficiency evaluation. -/
def isEvalEvent : Event → Bool
  | Event.evaluated _ _ _ => true
  | _ => false

/-- Number of `retried` events in a trace: how many times the pipeline
re-entered itself with `retry=True`. -/
def countRetried (evs : List Event) : Nat :=
  evs.countP fun e =>
    match e with
    | Event.retried _ => true
    | _ => false

/-! ## Concrete library fixture

Used only to instantiate witnesses and counterexamples; theorems are stated
over arbitrary `Libs` wherever the library behaviour matters. -/

/-- A concrete model of `tldextract.extract(url).domain` for ordinary
absolute URLs: the label immediately left of the final (single-label) public
suffix of the host. -/
def realTldDomain (url : List Char) : List Char :=
  let host :=
    match dropToDoubleSlash url with
    | some rest => rest.takeWhile (fun c => c != '/')
    | none => url.takeWhile (fun c => c != '/')
  match (splitSub ".".data host).reverse with
  | _ :: d :: _ => d
  | [d] => d
  | [] => []

/-- A concrete model of `wordninja.split` on the domain labels this
development evaluates.  The split of `businessinsider` and `nytimes` is
documented by the repository's own unit tests (`test_extract_source_names`);
single-word labels split to themselves. -/
def realWordSplit (s : List Char) : List (List Char) :=
  if s = "businessinsider".data then ["business".data, "insider".data]
  else if s = "nytimes".data then ["ny".data, "times".data]
  else [s]

/-- The concrete library fixture. -/
def realLibs : Libs :=
  { tldDomain := realTldDomain, wordSplit := realWordSplit }

/-! ## Helper lemmas -/

theorem splitSubFuel_eq (sep : List Char) :
    ∀ (n : Nat) (l : List Char), l.length ≤ n → splitSubFuel sep n l = splitSub sep l := by
  intro n
  induction n using Nat.strong_induction_on with
  | _ n ih =>
    intro l hl
    match n, l with
    | 0, [] => rfl
    | Nat.succ m, [] => rfl
    | 0, c :: cs => simp at hl
    | Nat.succ m, c :: cs =>
      show splitSubFuel sep (m + 1) (c :: cs) = splitSubFuel sep (cs.length + 1) (c :: cs)
      simp only [splitSubFuel]
      by_cases h : sep ≠ [] ∧ sep.isPrefixOf (c :: cs)
      · simp only [if_pos h]
        have hlen : ((c :: cs).drop sep.length).length ≤ cs.length := by
          have : 0 < sep.length := List.length_pos.mpr h.1
          simp only [List.length_drop, List.length_cons]
          omega
        have hm : cs.length ≤ m := by simpa using hl
        rw [ih m (Nat.lt_succ_self m) _ (le_trans hlen hm),
            ih cs.length (Nat.lt_succ_of_le hm) _ hlen]
      · simp only [if_neg h]
        have hm : cs.length ≤ m := by simpa using hl
        rw [ih m (Nat.lt_succ_self m) cs hm,
            ih cs.length (Nat.lt_succ_of_le hm) cs (le_refl _)]

theorem splitSub_cons (sep : List Char) (c : Char) (cs : List Char) :
    splitSub sep (c :: cs) =
      if sep ≠ [] ∧ sep.isPrefixOf (c :: cs) then
        [] :: splitSub sep ((c :: cs).drop sep.length)
      else
        match splitSub sep cs with
        | [] => [[c]]
        | p :: ps => (c :: p) :: ps := by
  show splitSubFuel sep (cs.length + 1) (c :: cs) = _
  simp only [splitSubFuel]
  by_cases h : sep ≠ [] ∧ sep.isPrefixOf (c :: cs)
  · simp only [if_pos h]
    have hlen : ((c :: cs).drop sep.length).length ≤ cs.length := by
      have : 0 < sep.length := List.length_pos.mpr h.1
      simp only [List.length_drop, List.length_cons]
      omega
    rw [splitSubFuel_eq sep cs.length _ hlen]
  · simp only [if_neg h]
    rw [splitSubFuel_eq sep cs.length cs (le_refl _)]

theorem splitSub_comma_no_occ :
    ∀ (u : List Char), ',' ∉ u → splitSub [',', ' '] u = [u] := by
  intro u
  induction u with
  | nil => intro; rfl
  | cons c cs ih =>
    intro h
    have hc : ¬(',' = c) := fun e => h (by simp [← e])
    rw [splitSub_cons]
    have hpre : ¬([',', ' '].isPrefixOf (c :: cs)) := by
      simp [List.isPrefixOf, hc]
    rw [if_neg (fun hand => hpre hand.2)]
    rw [ih (fun hm => h (List.mem_cons_of_mem c hm))]

theorem splitSub_comma_append :
    ∀ (u rest : List Char), ',' ∉ u →
      splitSub [',', ' '] (u ++ [',', ' '] ++ rest) = u :: splitSub [',', ' '] rest := by
  intro u
  induction u with
  | nil =>
    intro rest _
    show splitSub [',', ' '] (',' :: ' ' :: rest) = [] :: splitSub [',', ' '] rest
    rw [splitSub_cons]
    rw [if_pos (by simp [List.isPrefixOf])]
    rfl
  | cons c cs ih =>
    intro rest h
    have hc : ¬(',' = c) := fun e => h (by simp [← e])
    show splitSub [',', ' '] (c :: (cs ++ [',', ' '] ++ rest)) = _
    rw [splitSub_cons]
    have hpre : ¬([',', ' '].isPrefixOf (c :: (cs ++ [',', ' '] ++ rest))) := by
      simp [List.isPrefixOf, hc]
    rw [if_neg (fun hand => hpre hand.2)]
    rw [ih rest (fun hm => h (List.mem_cons_of_mem c hm))]

theorem splitSub_comma_join :
    ∀ (us : List (List Char)), us ≠ [] → (∀ u ∈ us, ',' ∉ u) →
      splitSub [',', ' '] (joinSep [',', ' '] us) = us := by
  intro us
  induction us with
  | nil => intro h; exact absurd rfl h
  | cons u vs ih =>
    intro _ hmem
    cases vs with
    | nil =>
      show splitSub [',', ' '] u = [u]
      exact splitSub_comma_no_occ u (hmem u (by simp))
    | cons v rest =>
      show splitSub [',', ' '] (u ++ [',', ' '] ++ joinSep [',', ' '] (v :: rest)) = _
      rw [splitSub_comma_append u _ (hmem u (by simp))]
      rw [ih (by simp) (fun w hw => hmem w (List.mem_cons_of_mem u hw))]

theorem dedupFirstAux_sublist :
    ∀ (l : List (List Char)) (seen), List.Sublist (dedupFirstAux seen l) l := by
  intro l
  induction l with
  | nil => intro seen; simp [dedupFirstAux]
  | cons x xs ih =>
    intro seen
    rw [dedupFirstAux]
    by_cases h : x ∈ seen
    · simp only [if_pos h]
      exact (ih seen).cons x
    · simp only [if_neg h]
      exact (ih (x :: seen)).cons₂ x

theorem mem_dedupFirstAux :
    ∀ (l : List (List Char)) (seen x), x ∈ dedupFirstAux seen l → x ∈ l ∧ x ∉ seen := by
  intro l
  induction l with
  | nil => intro seen x h; simp [dedupFirstAux] at h
  | cons y ys ih =>
    intro seen x h
    rw [dedupFirstAux] at h
    by_cases hy : y ∈ seen
    · rw [if_pos hy] at h
      have := ih seen x h
      exact ⟨List.mem_cons_of_mem y this.1, this.2⟩
    · rw [if_neg hy] at h
      rcases List.mem_cons.mp h with he | hm
      · subst he
        exact ⟨List.mem_cons_self x ys, hy⟩
      · have := ih (y :: seen) x hm
        exact ⟨List.mem_cons_of_mem y this.1,
               fun hs => this.2 (List.mem_cons_of_mem y hs)⟩

theorem nodup_dedupFirstAux :
    ∀ (l : List (List Char)) (seen), (dedupFirstAux seen l).Nodup := by
  intro l
  induction l with
  | nil => intro seen; simp [dedupFirstAux]
  | cons x xs ih =>
    intro seen
    rw [dedupFirstAux]
    by_cases h : x ∈ seen
    · simp only [if_pos h]
      exact ih seen
    · simp only [if_neg h]
      refine List.nodup_cons.mpr ⟨fun hm => ?_, ih (x :: seen)⟩
      exact (mem_dedupFirstAux xs (x :: seen) x hm).2 (List.mem_cons_self x seen)

theorem dedupFirst_cons (a : List Char) (l : List (List Char)) :
    dedupFirst (a :: l) = a :: dedupFirstAux [a] l := by
  simp [dedupFirst, dedupFirstAux]

theorem append_cons_ne :
    ∀ (p : List Char) (a b : Char) (x y : List Char),
      a ≠ b → p ++ a :: x ≠ p ++ b :: y := by
  intro p
  induction p with
  | nil =>
    intro a b x y hab h
    simp only [List.nil_append, List.cons.injEq] at h
    exact hab h.1
  | cons c cs ih =>
    intro a b x y hab h
    simp only [List.cons_append, List.cons.injEq] at h
    exact ih a b x y hab (by simpa using h.2)

/-! ## Pipeline fixtures

Concrete environments used by witnesses and counterexamples. -/

/-- A baseline concrete environment with deterministic, well-behaved
oracles. -/
def baseEnv : Env where
  userInput := "What does Tesla do?".data
  resolveQuery := fun q => q
  intentOf := fun _ => "general information".data
  companyOf := fun _ => "Tesla".data
  tickerLLM := fun _ => "TSLA".data
  stockAnswer := fun _ _ => "Tesla is up. (Source: Yahoo Finance).".data
  wikiAnswer := fun _ => "Tesla is an electric vehicle company.".data
  wikiUrl := fun _ => "https://en.wikipedia.org/wiki/Tesla".data
  evalLLM := fun _ _ => "sufficient".data
  tavily := fun _ => [("Tesla produces electric cars.".data, "https://tesla.com".data)]
  serper := fun _ => [("Tesla is a well-known EV brand.".data, "https://news.com/tesla".data)]
  combineLLM := fun _ _ _ _ => "Tesla makes EVs (https://tesla.com, https://news.com/tesla)".data
  validateLLM := fun _ _ _ _ => "valid".data
  somethingElse := "n".data
  libs := realLibs

/-- Environment whose auxiliary-response validator replies `invalid`. -/
def envInvalidVerdict : Env :=
  { baseEnv with validateLLM := fun _ _ _ _ => " Invalid ".data }

/-! ## Claim C5 -/

/-- C5: for every pair of input strings and every possible model reply,
`evaluate_response` returns exactly one of the three tokens `sufficient`,
`irrelevant`, `incomplete`, and any reply that after stripping and
lower-casing is not one of those three tokens is coerced to `incomplete`. -/
theorem C5_evaluate_response_totality :
    ∀ (evalLLM : List Char → List Char → List Char) (q a : List Char),
      (evaluate_response evalLLM q a = "sufficient".data ∨
       evaluate_response evalLLM q a = "irrelevant".data ∨
       evaluate_response evalLLM q a = "incomplete".data) ∧
      (pyLower (pyStrip (evalLLM q a)) ≠ "sufficient".data →
       pyLower (pyStrip (evalLLM q a)) ≠ "irrelevant".data →
       pyLower (pyStrip (evalLLM q a)) ≠ "incomplete".data →
       evaluate_response evalLLM q a = "incomplete".data) := by
  intro evalLLM q a
  by_cases h : pyLower (pyStrip (evalLLM q a)) = "sufficient".data ∨
      pyLower (pyStrip (evalLLM q a)) = "irrelevant".data ∨
      pyLower (pyStrip (evalLLM q a)) = "incomplete".data
  · constructor
    · unfold evaluate_response
      rw [if_pos h]
      exact h
    · intro h1 h2 h3
      rcases h with h | h | h
      · exact absurd h h1
      · exact absurd h h2
      · exact absurd h h3
  · constructor
    · right; right
      unfold evaluate_response
      rw [if_neg h]
    · intro _ _ _
      unfold evaluate_response
      rw [if_neg h]

/-- Witness for C5 at empty input strings and a garbage model reply. -/
theorem C5_evaluate_response_totality_witness :
    (evaluate_response (fun _ _ => " Garbage reply ".data) [] [] = "sufficient".data ∨
     evaluate_response (fun _ _ => " Garbage reply ".data) [] [] = "irrelevant".data ∨
     evaluate_response (fun _ _ => " Garbage reply ".data) [] [] = "incomplete".data) ∧
    evaluate_response (fun _ _ => " Garbage reply ".data) [] [] = "incomplete".data :=
  ⟨(C5_evaluate_response_totality (fun _ _ => " Garbage reply ".data) [] []).1,
   (C5_evaluate_response_totality (fun _ _ => " Garbage reply ".data) [] []).2
     (by decide) (by decide) (by decide)⟩

/-! ## Claim C3 -/

/-- C3: whenever the auxiliary-response validator's verdict (stripped and
lower-cased) is anything other than `valid`, `combined_search` with an
auxiliary answer returns exactly the value of `combined_search` on the same
query with no auxiliary answer: the auxiliary answer is wholly discarded. -/
theorem C3_invalid_auxiliary_discarded :
    ∀ (env : Env) (q aux auxsrc : List Char),
      pyLower (pyStrip (env.validateLLM q aux
        (VerificationSearchHandler.search_tavily env q).1
        (VerificationSearchHandler.search_serper env q).1)) ≠ "valid".data →
      VerificationSearchHandler.combined_search env q (some aux) (some auxsrc) =
        VerificationSearchHandler.combined_search env q none none := by
  intro env q aux auxsrc h
  by_cases ha : aux = []
  · subst ha
    simp [VerificationSearchHandler.combined_search]
  · simp only [VerificationSearchHandler.combined_search, if_pos ha,
      VerificationSearchHandler.verify_auxiliary_response, if_neg h]

/-- Witness for C3: with a validator replying `Invalid`, the auxiliary-path
call equals the no-auxiliary call on the concrete fixture. -/
theorem C3_invalid_auxiliary_discarded_witness :
    pyLower (pyStrip (envInvalidVerdict.validateLLM "q".data "some wiki answer".data
      (VerificationSearchHandler.search_tavily envInvalidVerdict "q".data).1
      (VerificationSearchHandler.search_serper envInvalidVerdict "q".data).1)) ≠ "valid".data ∧
    VerificationSearchHandler.combined_search envInvalidVerdict "q".data
        (some "some wiki answer".data) (some "https://en.wikipedia.org/wiki/X".data) =
      VerificationSearchHandler.combined_search envInvalidVerdict "q".data none none :=
  ⟨by decide,
   C3_invalid_auxiliary_discarded envInvalidVerdict "q".data "some wiki answer".data
     "https://en.wikipedia.org/wiki/X".data (by decide)⟩

/-! ## Claim C4 -/

/-- C4: when the auxiliary-response validator's verdict is `valid`, the
source list appended in parentheses to the auxiliary answer is the
first-seen deduplication of the auxiliary source followed by the first five
search sources: the auxiliary source is always its head (so the 5-source cap
never displaces it), at most five further sources follow, and the list has no
duplicates; the combined text is then formatted with the handler's own
`format_sources`. -/
theorem C4_valid_auxiliary_source_list :
    ∀ (env : Env) (q aux ft st : List Char) (sources : List (List Char))
      (aux_source : List Char),
      pyLower (pyStrip (env.validateLLM q aux ft st)) = "valid".data →
      VerificationSearchHandler.verify_auxiliary_response env q aux ft st sources aux_source =
        VerificationSearchHandler.format_sources env.libs
          (aux ++ " (".data ++
            joinSep ", ".data (dedupFirst (aux_source :: sources.take 5)) ++ ")".data) ∧
      (dedupFirst (aux_source :: sources.take 5)).head? = some aux_source ∧
      (dedupFirst (aux_source :: sources.take 5)).tail.length ≤ 5 ∧
      (dedupFirst (aux_source :: sources.take 5)).Nodup ∧
      ∀ x ∈ (dedupFirst (aux_source :: sources.take 5)).tail, x ∈ sources.take 5 := by
  intro env q aux ft st sources aux_source h
  refine ⟨?_, ?_, ?_, ?_, ?_⟩
  · simp only [VerificationSearchHandler.verify_auxiliary_response, if_pos h]
  · rw [dedupFirst_cons]
    rfl
  · rw [dedupFirst_cons]
    calc (aux_source :: dedupFirstAux [aux_source] (sources.take 5)).tail.length
        = (dedupFirstAux [aux_source] (sources.take 5)).length := rfl
      _ ≤ (sources.take 5).length :=
          (dedupFirstAux_sublist (sources.take 5) [aux_source]).length_le
      _ ≤ 5 := by simp [List.length_take]
  · rw [dedupFirst_cons]
    refine List.nodup_cons.mpr ⟨fun hm => ?_, nodup_dedupFirstAux _ _⟩
    exact (mem_dedupFirstAux _ _ _ hm).2 (List.mem_cons_self _ _)
  · rw [dedupFirst_cons]
    intro x hx
    exact (mem_dedupFirstAux _ _ _ hx).1

/-- Witness for C4 on a concrete environment and a source list that contains
the auxiliary source again plus duplicates and more than five entries. -/
theorem C4_valid_auxiliary_source_list_witness :
    pyLower (pyStrip (baseEnv.validateLLM "q".data "Tesla makes EVs.".data "t".data "s".data)) =
      "valid".data ∧
    (VerificationSearchHandler.verify_auxiliary_response baseEnv "q".data
        "Tesla makes EVs.".data "t".data "s".data
        ["https://a.com".data, "https://wiki.org".data, "https://a.com".data,
         "https://b.com".data, "https://c.com".data, "https://d.com".data,
         "https://e.com".data] "https://wiki.org".data =
      VerificationSearchHandler.format_sources baseEnv.libs
        ("Tesla makes EVs.".data ++ " (".data ++
          joinSep ", ".data (dedupFirst ("https://wiki.org".data ::
            (["https://a.com".data, "https://wiki.org".data, "https://a.com".data,
              "https://b.com".data, "https://c.com".data, "https://d.com".data,
              "https://e.com".data].take 5))) ++ ")".data)) ∧
    (dedupFirst ("https://wiki.org".data ::
        (["https://a.com".data, "https://wiki.org".data, "https://a.com".data,
          "https://b.com".data, "https://c.com".data, "https://d.com".data,
          "https://e.com".data].take 5))).head? = some "https://wiki.org".data :=
  ⟨by decide,
   (C4_valid_auxiliary_source_list baseEnv "q".data "Tesla makes EVs.".data "t".data "s".data
      ["https://a.com".data, "https://wiki.org".data, "https://a.com".data,
       "https://b.com".data, "https://c.com".data, "https://d.com".data,
       "https://e.com".data] "https://wiki.org".data (by decide)).1,
   (C4_valid_auxiliary_source_list baseEnv "q".data "Tesla makes EVs.".data "t".data "s".data
      ["https://a.com".data, "https://wiki.org".data, "https://a.com".data,
       "https://b.com".data, "https://c.com".data, "https://d.com".data,
       "https://e.com".data] "https://wiki.org".data (by decide)).2.1⟩

/-! ## Claim C9 -/

/-- A concrete JSON-parser fixture matching `json.loads` on the single reply
this development evaluates: the literal object text with an empty `tools`
list parses to the corresponding JSON object, nothing else parses. -/
def parseToolsEmpty : List Char → Option JsonVal := fun s =>
  if s = "\x7b\"tools\": []\x7d".data then some (JsonVal.obj [("tools".data, JsonVal.arr [])])
  else none

/-- Counterexample to C9: a model reply that parses as a well-formed JSON
object selecting zero tools makes `determine_tool_for_task` return the empty
selection, not the single default broad-web-search tool. -/
theorem C9_counterexample_empty_selection :
    determine_tool_for_task parseToolsEmpty "\x7b\"tools\": []\x7d".data =
      Except.ok ([] : List Tool) ∧
    Except.ok ([] : List Tool) ≠
      (Except.ok [Tool.TavilySearchResults] : Except (List Char) (List Tool)) := by
  constructor
  · rfl
  · intro h
    simp at h

/-- C9 as amended: the selection only ever contains tools from the fixed
map (unknown names are dropped); a reply that fails to parse as JSON, or
parses to a non-object, falls back to the single default
`TavilySearchResults` tool; but a well-formed object reply whose `tools`
list names zero known tools yields the empty selection, and an object reply
without a `tools` key raises an uncaught `KeyError`. -/
theorem C9_determine_tool_for_task_behaviour :
    (∀ (parse : List Char → Option JsonVal) (reply : List Char),
       parse (dtftNormalize reply) = none →
       determine_tool_for_task parse reply = Except.ok [Tool.TavilySearchResults]) ∧
    (∀ (parse : List Char → Option JsonVal) (reply : List Char) (v : JsonVal),
       parse (dtftNormalize reply) = some v → isObjJson v = false →
       determine_tool_for_task parse reply = Except.ok [Tool.TavilySearchResults]) ∧
    (∀ (parse : List Char → Option JsonVal) (reply : List Char)
       (fields : List (List Char × JsonVal)) (elems : List JsonVal),
       parse (dtftNormalize reply) = some (JsonVal.obj fields) →
       lookupField fields "tools".data = some (JsonVal.arr elems) →
       elems.any jsonUnhashable = false →
       determine_tool_for_task parse reply = Except.ok (selectedTools elems) ∧
       ∀ t ∈ selectedTools elems, ∃ s, JsonVal.str s ∈ elems ∧ toolOfName s = some t) ∧
    (∀ (parse : List Char → Option JsonVal) (reply : List Char)
       (fields : List (List Char × JsonVal)),
       parse (dtftNormalize reply) = some (JsonVal.obj fields) →
       lookupField fields "tools".data = none →
       determine_tool_for_task parse reply = Except.error "KeyError: tools".data) := by
  refine ⟨?_, ?_, ?_, ?_⟩
  · intro parse reply hp
    simp [determine_tool_for_task, hp]
  · intro parse reply v hp hobj
    rw [determine_tool_for_task, hp]
    cases v <;> simp_all [isObjJson]
  · intro parse reply fields elems hp hl hh
    constructor
    · rw [determine_tool_for_task, hp]
      simp only [hl, hh]
      rfl
    · intro t ht
      rcases List.mem_filterMap.mp ht with ⟨e, he, hsome⟩
      cases e with
      | str s => exact ⟨s, he, hsome⟩
      | num n => simp at hsome
      | boolean b => simp at hsome
      | null => simp at hsome
      | arr es => simp at hsome
      | obj fs => simp at hsome
  · intro parse reply fields hp hl
    rw [determine_tool_for_task, hp]
    simp only [hl]

/-- Witness for the amended C9, exercising all four clauses on concrete
parser fixtures: a parse failure, a non-object reply, an object reply whose
`tools` list holds one known and one unknown name, and an object reply with
no `tools` key. -/
theorem C9_determine_tool_for_task_behaviour_witness :
    determine_tool_for_task (fun _ => none) "not json at all".data =
      Except.ok [Tool.TavilySearchResults] ∧
    determine_tool_for_task (fun _ => some (JsonVal.arr [JsonVal.str "SerperQueryTool".data]))
        "[\"SerperQueryTool\"]".data = Except.ok [Tool.TavilySearchResults] ∧
    determine_tool_for_task
        (fun _ => some (JsonVal.obj [("tools".data,
          JsonVal.arr [JsonVal.str "SerperQueryTool".data, JsonVal.str "UnknownTool".data])]))
        "ignored".data = Except.ok (selectedTools
          [JsonVal.str "SerperQueryTool".data, JsonVal.str "UnknownTool".data]) ∧
    determine_tool_for_task (fun _ => some (JsonVal.obj [("other".data, JsonVal.null)]))
        "ignored".data = Except.error "KeyError: tools".data :=
  ⟨C9_determine_tool_for_task_behaviour.1 (fun _ => none) "not json at all".data rfl,
   C9_determine_tool_for_task_behaviour.2.1
     (fun _ => some (JsonVal.arr [JsonVal.str "SerperQueryTool".data]))
     "[\"SerperQueryTool\"]".data (JsonVal.arr [JsonVal.str "SerperQueryTool".data]) rfl rfl,
   (C9_determine_tool_for_task_behaviour.2.2.1
     (fun _ => some (JsonVal.obj [("tools".data,
       JsonVal.arr [JsonVal.str "SerperQueryTool".data, JsonVal.str "UnknownTool".data])]))
     "ignored".data _ _ rfl rfl rfl).1,
   C9_determine_tool_for_task_behaviour.2.2.2
     (fun _ => some (JsonVal.obj [("other".data, JsonVal.null)])) "ignored".data _ rfl rfl⟩

/-! ## Claim C8 -/

/-- Environment for the stock path whose ticker lookup returns a non-ticker
explanatory message. -/
def envNoTicker : Env :=
  { baseEnv with
      intentOf := fun _ => "stock".data
      companyOf := fun _ => "Local Pizza Shop".data
      tickerLLM := fun _ => "Not publicly traded".data }

/-- C8: whenever the (stripped) ticker reply is longer than 5 characters,
`analyze_stock` returns the structured failure `(False, message)` — carrying
the explanatory message and distinguishable by type from a string answer —
and the orchestrator surfaces it as the follow-up prompt (the `tickerFailed`
event), returning either the goodbye message or the result of a fresh
`main()` call, never a crash. -/
theorem C8_ticker_rejection_structured_failure :
    ∀ (env : Env) (company : List Char),
      5 < (FinancialQueryHandler.get_ticker env company).length →
      (∀ q, FinancialQueryHandler.analyze_stock env q company =
        PyRes.pairRes false (FinancialQueryHandler.get_ticker env company)) ∧
      (∀ (fuel : Nat) (input : List Char),
        env.intentOf env.userInput = "stock".data →
        env.companyOf env.userInput = company →
        Event.tickerFailed (FinancialQueryHandler.get_ticker env company) ∈
          (mainLoop env (fuel + 1) false input).2 ∧
        ((mainLoop env (fuel + 1) false input).1 = some goodbyeMsg ∨
         (mainLoop env (fuel + 1) false input).1 = (mainLoop env fuel false []).1)) := by
  intro env company hlen
  have hres : ∀ q, FinancialQueryHandler.analyze_stock env q company =
      PyRes.pairRes false (FinancialQueryHandler.get_ticker env company) := by
    intro q
    unfold FinancialQueryHandler.analyze_stock
    rw [if_pos hlen]
  refine ⟨hres, ?_⟩
  intro fuel input hintent hcomp
  rw [mainLoop]
  simp only [if_false, Bool.false_eq_true, ite_false]
  rw [hintent, hcomp]
  rw [if_pos rfl, hres]
  dsimp only
  by_cases hm : pyLower env.somethingElse ∈ ["y".data, "yes".data]
  · simp only [if_pos hm]
    constructor
    · exact List.mem_cons_of_mem _ (List.mem_cons_self _ _)
    · right; trivial
  · simp only [if_neg hm]
    constructor
    · simp
    · left; trivial

/-- Witness for C8 on the `envNoTicker` fixture. -/
theorem C8_ticker_rejection_structured_failure_witness :
    5 < (FinancialQueryHandler.get_ticker envNoTicker "Local Pizza Shop".data).length ∧
    FinancialQueryHandler.analyze_stock envNoTicker "q".data "Local Pizza Shop".data =
      PyRes.pairRes false "Not publicly traded".data ∧
    Event.tickerFailed (FinancialQueryHandler.get_ticker envNoTicker "Local Pizza Shop".data) ∈
      (mainLoop envNoTicker 1 false "anything".data).2 ∧
    (mainLoop envNoTicker 1 false "anything".data).1 = some goodbyeMsg :=
  ⟨by decide,
   by
     have := (C8_ticker_rejection_structured_failure envNoTicker "Local Pizza Shop".data
       (by decide)).1 "q".data
     rw [this]
     decide,
   ((C8_ticker_rejection_structured_failure envNoTicker "Local Pizza Shop".data
       (by decide)).2 0 "anything".data (by decide) (by decide)).1,
   by decide⟩

/-! ## Claim C1 -/

/-- Environment for a successful stock-intent query. -/
def envStockOk : Env :=
  { baseEnv with
      userInput := "Apple stock price".data
      intentOf := fun _ => "stock".data
      companyOf := fun _ => "Apple".data
      tickerLLM := fun _ => "AAPL".data
      stockAnswer := fun _ _ =>
        "As of today, Apple ($AAPL) trades at 150 (Source: Yahoo Finance).".data }

/-- Counterexample to C1: on a stock-intent query with a successful ticker
lookup, the orchestrator returns the financial handler's candidate answer
directly — the execution records no `evaluated` event at all (the candidate
never reaches the Sufficiency Evaluator) and no verification stage runs. -/
theorem C1_counterexample_stock_bypass :
    (mainLoop envStockOk 1 false "Apple stock price".data).1 =
      some "As of today, Apple ($AAPL) trades at 150 (Source: Yahoo Finance).".data ∧
    (mainLoop envStockOk 1 false "Apple stock price".data).2 =
      [Event.disambiguated "Apple stock price".data] ∧
    List.countP isEvalEvent (mainLoop envStockOk 1 false "Apple stock price".data).2 = 0 := by
  refine ⟨by decide, by decide, by decide⟩

/-- C1 as amended: for every non-stock intent the orchestrator follows the
specified sequence — the handler's candidate answer is passed to the
Evaluator; on `sufficient` the Verification handler validates the candidate
(auxiliary path) and its result is returned; otherwise Verification performs
its own combined search, the Evaluator re-checks that result, which is
returned if now sufficient and otherwise triggers the retry re-entry.  For
`stock` intent with a successful lookup, the candidate is returned directly,
bypassing both the Evaluator and the Verification handler. -/
theorem C1_amended_stage_sequence :
    (∀ (env : Env) (fuel : Nat) (input rq first e1 : List Char),
      env.intentOf env.userInput ≠ "stock".data →
      rq = env.resolveQuery env.userInput →
      first = env.wikiAnswer rq →
      e1 = evaluate_response env.evalLLM rq first →
      Event.evaluated rq first e1 ∈ (mainLoop env (fuel + 1) false input).2 ∧
      (e1 = "sufficient".data →
        mainLoop env (fuel + 1) false input =
          (some (VerificationSearchHandler.combined_search env rq (some first)
              (some (env.wikiUrl rq))),
           [Event.disambiguated rq, Event.evaluated rq first e1,
            Event.verifiedAux rq first])) ∧
      (e1 ≠ "sufficient".data →
        Event.searchedCombined rq ∈ (mainLoop env (fuel + 1) false input).2 ∧
        Event.evaluated rq (VerificationSearchHandler.combined_search env rq none none)
            (evaluate_response env.evalLLM rq
              (VerificationSearchHandler.combined_search env rq none none)) ∈
          (mainLoop env (fuel + 1) false input).2 ∧
        (evaluate_response env.evalLLM rq
            (VerificationSearchHandler.combined_search env rq none none) = "sufficient".data →
          (mainLoop env (fuel + 1) false input).1 =
            some (VerificationSearchHandler.combined_search env rq none none)) ∧
        (evaluate_response env.evalLLM rq
            (VerificationSearchHandler.combined_search env rq none none) ≠ "sufficient".data →
          Event.retried rq ∈ (mainLoop env (fuel + 1) false input).2))) ∧
    (∀ (env : Env) (fuel : Nat) (input s : List Char),
      env.intentOf env.userInput = "stock".data →
      FinancialQueryHandler.analyze_stock env (env.resolveQuery env.userInput)
          (env.companyOf env.userInput) = PyRes.strRes s →
      mainLoop env (fuel + 1) false input =
        (some s, [Event.disambiguated (env.resolveQuery env.userInput)])) := by
  constructor
  · intro env fuel input rq first e1 hintent hrq hfirst he1
    subst hrq hfirst he1
    rw [mainLoop]
    simp only [Bool.false_eq_true, if_false, ite_false]
    rw [if_neg hintent]
    by_cases h1 : evaluate_response env.evalLLM (env.resolveQuery env.userInput)
        (env.wikiAnswer (env.resolveQuery env.userInput)) = "sufficient".data
    · simp only [if_pos h1]
      refine ⟨by simp [h1], fun _ => by trivial, fun hne => absurd h1 hne⟩
    · simp only [if_neg h1]
      by_cases h2 : evaluate_response env.evalLLM (env.resolveQuery env.userInput)
          (VerificationSearchHandler.combined_search env (env.resolveQuery env.userInput)
            none none) = "sufficient".data
      · simp only [if_pos h2]
        refine ⟨by simp, fun hs => absurd hs h1, fun _ => ⟨by simp, by simp, fun _ => by trivial,
          fun hne => absurd h2 hne⟩⟩
      · simp only [if_neg h2]
        refine ⟨by simp, fun hs => absurd hs h1, fun _ => ⟨by simp, by simp,
          fun hs => absurd hs h2, fun _ => by simp⟩⟩
  · intro env fuel input s hintent hres
    rw [mainLoop]
    simp only [Bool.false_eq_true, if_false, ite_false]
    rw [if_pos hintent, hres]

/-- Witness for the amended C1: the non-stock sufficient path on `baseEnv`
and the stock path on `envStockOk`, at concrete inputs. -/
theorem C1_amended_stage_sequence_witness :
    mainLoop baseEnv 1 false "x".data =
      (some (VerificationSearchHandler.combined_search baseEnv
          "What does Tesla do?".data
          (some "Tesla is an electric vehicle company.".data)
          (some "https://en.wikipedia.org/wiki/Tesla".data)),
       [Event.disambiguated "What does Tesla do?".data,
        Event.evaluated "What does Tesla do?".data
          "Tesla is an electric vehicle company.".data "sufficient".data,
        Event.verifiedAux "What does Tesla do?".data
          "Tesla is an electric vehicle company.".data]) ∧
    mainLoop envStockOk 1 false "x".data =
      (some "As of today, Apple ($AAPL) trades at 150 (Source: Yahoo Finance).".data,
       [Event.disambiguated "Apple stock price".data]) := by
  constructor
  · have := (C1_amended_stage_sequence.1 baseEnv 0 "x".data
      "What does Tesla do?".data "Tesla is an electric vehicle company.".data
      "sufficient".data (by decide) rfl (by decide) (by decide)).2.1 rfl
    rw [this]
    rfl
  · exact C1_amended_stage_sequence.2 envStockOk 0 "x".data
      "As of today, Apple ($AAPL) trades at 150 (Source: Yahoo Finance).".data
      (by decide) (by decide)

/-! ## Claim C2 -/

/-- Environment whose sufficiency evaluator always answers `incomplete`. -/
def envAlwaysInsufficient : Env :=
  { baseEnv with evalLLM := fun _ _ => "incomplete".data }

/-- Counterexample to C2: when the evaluator keeps judging every result
insufficient, an execution re-enters the pipeline with `retry=True` more than
once for a single user query — already the fuel-3 prefix of the (unboundedly
recursing) run contains at least two retries. -/
theorem C2_counterexample_two_retries :
    2 ≤ countRetried (mainLoop envAlwaysInsufficient 3 false "q".data).2 := by
  decide

/-- C2 as amended: nothing bounds the retry re-entry — there is no retry
counter, and every failed re-evaluation recurses again, so the fuel-`n`
prefix of the run on an always-insufficient evaluator performs exactly `n`
retries (the recursion is unbounded). -/
theorem C2_amended_unbounded_retries :
    ∀ (n : Nat) (retry : Bool) (input : List Char),
      countRetried (mainLoop envAlwaysInsufficient n retry input).2 = n := by
  have hint : ∀ (x : List Char),
      ¬(envAlwaysInsufficient.intentOf x = "stock".data) := fun x => by
    show ¬("general information".data = "stock".data)
    decide
  have heval : ∀ (x y : List Char),
      ¬(evaluate_response envAlwaysInsufficient.evalLLM x y = "sufficient".data) :=
    fun x y => by
      show ¬(evaluate_response (fun _ _ => "incomplete".data) x y = "sufficient".data)
      rw [show evaluate_response (fun _ _ => "incomplete".data) x y = "incomplete".data from rfl]
      decide
  intro n
  induction n with
  | zero => intro retry input; rfl
  | succ m ih =>
    intro retry input
    rw [mainLoop]
    rw [if_neg (hint _)]
    rw [if_neg (heval _ _)]
    rw [if_neg (heval _ _)]
    simp only [countRetried, List.countP_append, List.countP_cons]
    rw [show List.countP
        (fun e => match e with | Event.retried _ => true | _ => false)
        (mainLoop envAlwaysInsufficient m true
          (envAlwaysInsufficient.resolveQuery
            (if retry = true then input else envAlwaysInsufficient.userInput))).2 = m from
      ih true _]
    simp
    omega

/-! ## Claim C7 -/

/-- Counterexample to C7: on a URL with a subdomain, the primary attribution
function `utils.extract_source_names` uses only the registrable domain — it
renders `https://finance.yahoo.com/...` as `Yahoo` — while the claimed
contract (splitting registrable domain AND subdomain, as the graph variant
`extract_source_name` implements, per its own docstring) yields
`Yahoo Finance`.  The two cited implementations disagree, and the primary one
does not satisfy the claim. -/
theorem C7_counterexample_subdomain_dropped :
    (extract_source_names realLibs
        ["https://finance.yahoo.com/quote/NVDA/news/".data]).map Prod.fst = ["Yahoo".data] ∧
    extract_source_name realLibs "https://finance.yahoo.com/quote/NVDA/news/".data =
      "Yahoo Finance".data ∧
    ("Yahoo".data : List Char) ≠ "Yahoo Finance".data := by
  refine ⟨by decide, by decide, by decide⟩

/-- C7 as amended: the graph-variant attribution function
`extract_source_name` behaves as claimed — it splits the netloc's
domain-and-subdomain labels into words, removes duplicate words preserving
first occurrence (the deduplicated list is duplicate-free and an
order-preserving sublist of the word sequence), renders words of length at
most 3 upper-case and longer words title-case, and joins with spaces;
`businessinsider.com` attributes to `Business Insider` and `nytimes.com` to
`NY Times` under both cited implementations.  The primary
`utils.extract_source_names`, however, segments only the registrable domain
(no subdomain) and performs no word deduplication. -/
theorem C7_amended_source_attribution :
    (∀ (L : Libs) (url : List Char),
      extract_source_name L url =
        joinSep " ".data ((dedupFirst (sourceWordsOf L url)).map graphWordFmt) ∧
      (dedupFirst (sourceWordsOf L url)).Nodup ∧
      List.Sublist (dedupFirst (sourceWordsOf L url)) (sourceWordsOf L url)) ∧
    extract_source_name realLibs "https://businessinsider.com/x".data =
      "Business Insider".data ∧
    extract_source_name realLibs "https://nytimes.com/y".data = "NY Times".data ∧
    (extract_source_names realLibs ["https://businessinsider.com/x".data]).map Prod.fst =
      ["Business Insider".data] ∧
    (extract_source_names realLibs ["https://nytimes.com/y".data]).map Prod.fst =
      ["NY Times".data] ∧
    (∀ (L : Libs) (url : List Char),
      (extract_source_names L [url]).map Prod.fst =
        [joinSep " ".data ((L.wordSplit (L.tldDomain url)).map
          fun word => if word.length ≤ 3 then pyUpper word else pyCapitalize word)]) := by
  refine ⟨?_, by decide, by decide, by decide, by decide, ?_⟩
  · intro L url
    exact ⟨rfl, nodup_dedupFirstAux _ _, dedupFirstAux_sublist _ _⟩
  · intro L url
    rfl

/-! ## Shape lemmas for the handler's trailing-group regex -/

theorem lastSplit_of_not_mem :
    ∀ (c : Char) (l : List Char), c ∉ l → lastSplit c l = none := by
  intro c l
  induction l with
  | nil => intro; rfl
  | cons x xs ih =>
    intro h
    rw [lastSplit]
    rw [ih (fun hm => h (List.mem_cons_of_mem x hm))]
    rw [if_neg (fun he => h (by rw [he]; exact List.mem_cons_self c xs))]

theorem lastSplit_append_of_not_mem :
    ∀ (c : Char) (a b : List Char), c ∉ b → lastSplit c (a ++ c :: b) = some (a, b) := by
  intro c a b hb
  induction a with
  | nil =>
    rw [List.nil_append, lastSplit, lastSplit_of_not_mem c b hb, if_pos rfl]
  | cons x a' ih =>
    rw [List.cons_append, lastSplit, ih]

theorem vsh_search_shape :
    ∀ (p J : List Char), '(' ∉ p →
      VerificationSearchHandler.vshSearchTrailing (p ++ '(' :: (J ++ [')'])) = some J := by
  intro p J hp
  unfold VerificationSearchHandler.vshSearchTrailing
  have hrev : (p ++ '(' :: (J ++ [')'])).reverse = ')' :: (J.reverse ++ '(' :: p.reverse) := by
    simp
  rw [hrev]
  rw [List.dropWhile_cons_of_neg (by decide)]
  dsimp only
  rw [if_pos rfl]
  rw [lastSplit_append_of_not_mem '(' J.reverse p.reverse (by simp [hp])]
  simp

theorem vsh_sub_shape :
    ∀ (p J repl : List Char), '(' ∉ p →
      VerificationSearchHandler.vshSubTrailing (p ++ '(' :: (J ++ [')'])) repl = p ++ repl := by
  intro p J repl hp
  unfold VerificationSearchHandler.vshSubTrailing
  have hrev : (p ++ '(' :: (J ++ [')'])).reverse = ')' :: (J.reverse ++ '(' :: p.reverse) := by
    simp
  rw [hrev]
  rw [List.dropWhile_cons_of_neg (by decide)]
  dsimp only
  rw [if_pos rfl]
  rw [lastSplit_append_of_not_mem '(' J.reverse p.reverse (by simp [hp])]
  simp

/-! ## Claim C10 -/

/-- C10: on the validated-auxiliary path, citations are formatted by the
handler's own static `format_sources`/`extract_source_names` (second
conjunct), and that formatter renders every URL of a trailing parenthesized
comma-separated list as its bare registrable domain with only the first
letter capitalized — no word segmentation, no short-word upper-casing, no
hyperlink wrapping and no deduplication (first conjunct: the output is
literally the prefix followed by the plain capitalized domains).  Hence two
distinct URLs sharing a domain yield two identical, non-clickable names
(third conjunct). -/
theorem C10_vsh_citation_formatting :
    (∀ (L : Libs) (p : List Char) (urls : List (List Char)),
      urls ≠ [] → (∀ u ∈ urls, ',' ∉ u) → '(' ∉ p →
      VerificationSearchHandler.format_sources L
          (p ++ '(' :: (joinSep ", ".data urls ++ [')'])) =
        p ++ "(Source: ".data ++
          joinSep ", ".data (urls.map fun u => pyCapitalize (L.tldDomain u)) ++ ")".data) ∧
    (∀ (env : Env) (q aux ft st : List Char) (sources : List (List Char))
      (aux_source : List Char),
      pyLower (pyStrip (env.validateLLM q aux ft st)) = "valid".data →
      VerificationSearchHandler.verify_auxiliary_response env q aux ft st sources aux_source =
        VerificationSearchHandler.format_sources env.libs
          (aux ++ " (".data ++
            joinSep ", ".data (dedupFirst (aux_source :: sources.take 5)) ++ ")".data)) ∧
    VerificationSearchHandler.format_sources realLibs
        "Answer (https://example.com/a, https://example.com/b)".data =
      "Answer (Source: Example, Example)".data := by
  refine ⟨?_, ?_, by decide⟩
  · intro L p urls hne hcomma hp
    unfold VerificationSearchHandler.format_sources
    rw [vsh_search_shape p (joinSep ", ".data urls) hp]
    dsimp only
    rw [splitSub_comma_join urls hne hcomma]
    rw [show VerificationSearchHandler.extract_source_names L urls =
      urls.map (fun u => pyCapitalize (L.tldDomain u)) from rfl]
    rw [vsh_sub_shape p _ _ hp]
    simp
  · intro env q aux ft st sources aux_source h
    simp only [VerificationSearchHandler.verify_auxiliary_response, if_pos h]

/-- Witness for C10: the formatter equation at a concrete prefix and URL
pair, and the validated-auxiliary path on the concrete environment. -/
theorem C10_vsh_citation_formatting_witness :
    VerificationSearchHandler.format_sources realLibs
        ("Answer ".data ++ '(' ::
          (joinSep ", ".data ["https://tesla.com".data, "https://news.com/x".data] ++ [')'])) =
      "Answer ".data ++ "(Source: ".data ++
        joinSep ", ".data (["https://tesla.com".data, "https://news.com/x".data].map
          fun u => pyCapitalize (realLibs.tldDomain u)) ++ ")".data ∧
    pyLower (pyStrip (baseEnv.validateLLM "q".data "a".data "f".data "s".data)) =
      "valid".data ∧
    VerificationSearchHandler.verify_auxiliary_response baseEnv "q".data "a".data "f".data
        "s".data ["https://b.com".data] "https://w.org".data =
      VerificationSearchHandler.format_sources baseEnv.libs
        ("a".data ++ " (".data ++
          joinSep ", ".data (dedupFirst ("https://w.org".data ::
            (["https://b.com".data].take 5))) ++ ")".data) :=
  ⟨C10_vsh_citation_formatting.1 realLibs "Answer ".data
      ["https://tesla.com".data, "https://news.com/x".data]
      (by decide) (by decide) (by decide),
   by decide,
   C10_vsh_citation_formatting.2.1 baseEnv "q".data "a".data "f".data "s".data
     ["https://b.com".data] "https://w.org".data (by decide)⟩

/-! ## Claim C6 -/

/-- First pass of `format_sources` on a text ending in a single-URL
parenthesized group: it produces a hyperlinked `(Source: ...)` citation
(value fixed by the unit-test-documented segmentation of `news.com`). -/
theorem format_sources_first_pass (L : Libs)
    (H : L.wordSplit (L.tldDomain "https://news.com".data) = ["news".data]) :
    format_sources L "Latest news (https://news.com).".data none =
      "Latest news (Source: \x1b]8;;https://news.com\x1b\\News\x1b]8;;\x1b\\).".data := by
  unfold format_sources
  rw [show searchTrailing "Latest news (https://news.com).".data =
    some "https://news.com".data from by decide]
  dsimp only
  rw [show splitSub ", ".data "https://news.com".data = ["https://news.com".data] from by decide]
  unfold extract_source_names
  dsimp only [List.map]
  rw [H]
  decide

/-- Second pass of `format_sources` on the first pass's output: the trailing
`(Source: ...)` group produced by the first pass is matched again, and the
whole already-hyperlinked content is re-attributed as if it were a URL and
wrapped in a fresh hyperlink. -/
theorem format_sources_second_pass (L : Libs) :
    format_sources L
        "Latest news (Source: \x1b]8;;https://news.com\x1b\\News\x1b]8;;\x1b\\).".data none =
      "Latest news ".data ++ "(Source: ".data ++
        hyperlink "Source: \x1b]8;;https://news.com\x1b\\News\x1b]8;;\x1b\\".data
          (joinSep " ".data ((L.wordSplit (L.tldDomain
            "Source: \x1b]8;;https://news.com\x1b\\News\x1b]8;;\x1b\\".data)).map
            fun word => if word.length ≤ 3 then pyUpper word else pyCapitalize word)) ++
        ").".data := by
  unfold format_sources
  rw [show searchTrailing
      "Latest news (Source: \x1b]8;;https://news.com\x1b\\News\x1b]8;;\x1b\\).".data =
    some "Source: \x1b]8;;https://news.com\x1b\\News\x1b]8;;\x1b\\".data from by decide]
  dsimp only
  rw [show splitSub ", ".data
      "Source: \x1b]8;;https://news.com\x1b\\News\x1b]8;;\x1b\\".data =
    ["Source: \x1b]8;;https://news.com\x1b\\News\x1b]8;;\x1b\\".data] from by decide]
  unfold extract_source_names
  dsimp only [List.map]
  rfl

/-- For every library behaviour that splits `news.com` into the word `news`
(the behaviour the repository's unit tests document), applying
`format_sources` twice differs from applying it once: the second application
wraps the first hyperlink inside another one. -/
theorem format_sources_second_pass_changes (L : Libs)
    (H : L.wordSplit (L.tldDomain "https://news.com".data) = ["news".data]) :
    format_sources L (format_sources L "Latest news (https://news.com).".data none) none ≠
      format_sources L "Latest news (https://news.com).".data none := by
  rw [format_sources_first_pass L H, format_sources_second_pass L]
  generalize joinSep " ".data ((L.wordSplit (L.tldDomain
    "Source: \x1b]8;;https://news.com\x1b\\News\x1b]8;;\x1b\\".data)).map
    fun word => if word.length ≤ 3 then pyUpper word else pyCapitalize word) = M
  intro hEq
  exact append_cons_ne "Latest news (Source: \x1b]8;;".data 'S' 'h'
    ("ource: \x1b]8;;https://news.com\x1b\\News\x1b]8;;\x1b\\\x1b\\".data ++
      ((M ++ "\x1b]8;;\x1b\\".data) ++ ").".data))
    "ttps://news.com\x1b\\News\x1b]8;;\x1b\\).".data
    (by decide) hEq

/-- Counterexample to C6: `format_sources` is not idempotent on its own
output.  On the concrete input `Latest news (https://news.com).` (no ticker),
the first application yields a trailing `(Source: ...)` group which the
second application re-formats, altering the already-hyperlinked citation
even though no new trailing parenthesis was introduced between the two
applications. -/
theorem C6_counterexample_second_application_differs :
    format_sources realLibs
        (format_sources realLibs "Latest news (https://news.com).".data none) none ≠
      format_sources realLibs "Latest news (https://news.com).".data none :=
  format_sources_second_pass_changes realLibs (by decide)

/-- C6 as amended: `format_sources` (with no ticker) returns the text
unchanged — and hence is idempotent — exactly on texts with no trailing
parenthesized group.  Whenever the trailing-group regex matches, the output
itself ends in a `(Source: ...).` group, which a second application matches
and re-formats, so idempotence fails on formatted output (see the
counterexample). -/
theorem C6_amended_unchanged_without_trailing_group :
    ∀ (L : Libs) (text : List Char), searchTrailing text = none →
      format_sources L text none = text ∧
      format_sources L (format_sources L text none) none =
        format_sources L text none := by
  intro L text h
  have h1 : format_sources L text none = text := by
    unfold format_sources
    rw [h]
  refine ⟨h1, ?_⟩
  rw [h1]
  exact h1

/-- Witness for the amended C6 on a text with no trailing parenthesis. -/
theorem C6_amended_unchanged_without_trailing_group_witness :
    format_sources realLibs "Hello world".data none = "Hello world".data ∧
    format_sources realLibs (format_sources realLibs "Hello world".data none) none =
      format_sources realLibs "Hello world".data none :=
  C6_amended_unchanged_without_trailing_group realLibs "Hello world".data (by decide)
